import Mathlib

/-!
Verification of the Goal Progress & Pace Engine (`goals.py`, `scheduler.py`).

Shallow embedding conventions:
* Python floats are modelled as rationals (`ℚ`); the arithmetic in the engine
  is exact on the inputs the spec talks about.
* `date.today()` is modelled as an explicit `today : ℤ` parameter holding the
  rata-die (proleptic-Gregorian ordinal) day number; `datetime.strptime(s,
  '%Y-%m-%d').date()` is modelled by `parseYMD`, an executable parser over
  ASCII digit strings that mirrors CPython's `_strptime` regex for the
  `%Y-%m-%d` format plus `datetime.date`'s range validation.
* Python `None` becomes `Option.none`; a fallible computation returns
  `Option`.
* Python dicts holding goal and checkin records become structures whose
  optional fields are `Option`-valued (`.get(k)` = the `Option` field,
  `.get(k, d)` = `Option.getD`).
-/

namespace TechRise

/-- Gregorian leap-year test, as used by `datetime.date`. -/
def isLeap (y : ℕ) : Bool :=
  y % 4 == 0 && (y % 100 != 0 || y % 400 == 0)

/-- Length of month `m` (1-12) of year `y`, as validated by `datetime.date`. -/
def daysInMonth (y m : ℕ) : ℕ :=
  if m = 2 then (if isLeap y then 29 else 28)
  else if m = 4 ∨ m = 6 ∨ m = 9 ∨ m = 11 then 30
  else 31

/-- Days of year `y` strictly before month `m` (1-12). -/
def daysBeforeMonth (y m : ℕ) : ℕ :=
  (List.range (m - 1)).foldl (fun acc i => acc + daysInMonth y (i + 1)) 0

/-- Rata-die ordinal of the date `(y, m, d)`: day 1 is 0001-01-01, matching
`datetime.date.toordinal`. -/
def toOrdinal (y m d : ℕ) : ℕ :=
  365 * (y - 1) + (y - 1) / 4 - (y - 1) / 100 + (y - 1) / 400
    + daysBeforeMonth y m + d

/-- ASCII decimal digit test (`\d` of the `_strptime` regexes, restricted to
ASCII, which covers every input the spec discusses). -/
def isDig (c : Char) : Bool := '0' ≤ c && c ≤ '9'

/-- Numeric value of a list of ASCII digits. -/
def digitsVal (cs : List Char) : ℕ :=
  cs.foldl (fun n c => 10 * n + (c.toNat - 48)) 0

/-- Split a leading maximal run of ASCII digits off a character list. -/
def takeDigits : List Char → List Char × List Char
  | [] => ([], [])
  | c :: cs =>
    if isDig c then
      let p := takeDigits cs
      (c :: p.1, p.2)
    else ([], c :: cs)

/-- Model of `datetime.strptime(s, '%Y-%m-%d').date()` as a parser returning
the rata-die ordinal of the parsed date, or `none` on `ValueError`: the year
is exactly four digits, month and day are one- or two-digit runs separated by
literal dashes, nothing may remain after the day, the month must be 1-12, the
day must be 1-`daysInMonth`, and the year must be at least `MINYEAR = 1`. -/
def parseYMD (s : String) : Option ℕ :=
  match s.toList with
  | y1 :: y2 :: y3 :: y4 :: '-' :: rest =>
    if isDig y1 && isDig y2 && isDig y3 && isDig y4 then
      let y := digitsVal [y1, y2, y3, y4]
      let pm := takeDigits rest
      match pm.2 with
      | '-' :: rest2 =>
        let pd := takeDigits rest2
        let m := digitsVal pm.1
        let d := digitsVal pd.1
        if pd.2 = [] ∧ 1 ≤ pm.1.length ∧ pm.1.length ≤ 2 ∧
            1 ≤ pd.1.length ∧ pd.1.length ≤ 2 ∧
            1 ≤ m ∧ m ≤ 12 ∧ 1 ≤ d ∧ d ≤ daysInMonth y m ∧ 1 ≤ y then
          some (toOrdinal y m d)
        else none
      | _ => none
    else none
  | _ => none

/-- A goal record as read back from the store: the fields `goals.py` touches,
with `Option` for the keys accessed through `.get`. -/
structure Goal where
  current_value : ℚ
  target_value : ℚ
  deadline : Option String
  initial_value : Option ℚ
  name : Option String
deriving Repr, DecidableEq

/-- A daily-checkin record: the fields `get_weekly_report` touches, with
`Option` for the keys accessed through `.get`. -/
structure Checkin where
  workout : Option Bool
  income : Option ℚ
deriving Repr, DecidableEq

/-- Embedding of `GoalsCalculator.days_until` (`goals.py` 31-49): days from `today` to the
deadline, `none` when the deadline is falsy, unparseable, or already past. -/
def days_until (deadline_str : Option String) (today : ℤ) : Option ℤ :=
  match deadline_str with
  | none => none
  | some s =>
    if s = "" then none
    else
      match parseYMD s with
      | none => none
      | some dl =>
        let days : ℤ := (dl : ℤ) - today
        if 0 ≤ days then some days else none

/-- Embedding of `GoalsCalculator.calculate_progress_percent` (`goals.py` 51-78). The
`goal_name` parameter is accepted as in the source but never read. -/
def calculate_progress_percent (current target : ℚ) (initial : Option ℚ)
    (goal_name : Option String) : ℚ :=
  if target = 0 then 0
  else
    match initial with
    | some i =>
      if current > target then
        if i = target then (if current ≤ target then 100 else 0)
        else max 0 (min 100 ((i - current) / (i - target) * 100))
      else min 100 (current / target * 100)
    | none => min 100 (current / target * 100)

/-- Rata-die ordinal of `date(2026, 1, 1)`, the fixed epoch of
`calculate_time_progress`. -/
def startOfYear2026 : ℕ := toOrdinal 2026 1 1

/-- Embedding of `GoalsCalculator.calculate_time_progress` (`goals.py` 80-106): fraction of
the time between the 2026 epoch and the deadline that has elapsed by `today`,
clamped to [0, 100]; `none` when the deadline is falsy, unparseable, or not
after the epoch. -/
def calculate_time_progress (deadline_str : Option String) (today : ℤ) :
    Option ℚ :=
  match deadline_str with
  | none => none
  | some s =>
    if s = "" then none
    else
      match parseYMD s with
      | none => none
      | some dl =>
        let total_days : ℤ := (dl : ℤ) - (startOfYear2026 : ℤ)
        let passed_days : ℤ := today - (startOfYear2026 : ℤ)
        if total_days ≤ 0 then none
        else some (max 0 (min 100 ((passed_days : ℚ) / (total_days : ℚ) * 100)))

/-- Embedding of `GoalsCalculator.get_progress_status` (`goals.py` 108-150). -/
def get_progress_status (goal : Goal) (today : ℤ) : String :=
  let current := goal.current_value
  let target := goal.target_value
  let deadline := goal.deadline
  let initial := goal.initial_value
  let goal_name : Option String := some (goal.name.getD "")
  if deadline = none ∨ deadline = some "" then
    let progress := calculate_progress_percent current target initial goal_name
    if progress ≥ 100 then "completed"
    else if progress ≥ 80 then "on_track"
    else "behind"
  else
    let value_progress := calculate_progress_percent current target initial goal_name
    match calculate_time_progress deadline today with
    | none => "on_track"
    | some time_progress =>
      if value_progress > time_progress + 10 then "ahead"
      else if value_progress < time_progress - 10 then "behind"
      else "on_track"

/-- The upcoming-deadline collection loop of `GoalsCalculator.get_today_summary`
(`goals.py` 194-198): the goals paired with their day counts when
`days and 0 < days < 60`, in input order. -/
def upcoming_deadlines (goals : List Goal) (today : ℤ) : List (Goal × ℤ) :=
  goals.filterMap (fun g =>
    match days_until g.deadline today with
    | none => none
    | some d => if d ≠ 0 ∧ 0 < d ∧ d < 60 then some (g, d) else none)

/-- The upcoming-deadlines section body of `get_today_summary` (`goals.py`
200-203): `sorted(upcoming_deadlines, key=lambda x: x[1])[:5]`. Python's
`sorted` is a stable ascending sort by the key, modelled by the stable
`List.mergeSort` on the day count. -/
def get_today_summary_deadlines (goals : List Goal) (today : ℤ) :
    List (Goal × ℤ) :=
  ((upcoming_deadlines goals today).mergeSort
    (fun a b => decide (a.2 ≤ b.2))).take 5

/-- The upcoming-deadline collection loop of
`NotificationScheduler.send_morning_notification` (`scheduler.py` 62-67):
the goals paired with their day counts when `days and 0 < days < 30`, in
input order. -/
def morning_upcoming (goals : List Goal) (today : ℤ) : List (Goal × ℤ) :=
  goals.filterMap (fun g =>
    match days_until g.deadline today with
    | none => none
    | some d => if d ≠ 0 ∧ 0 < d ∧ d < 30 then some (g, d) else none)

/-- The morning-notification deadline list (`scheduler.py` 69-71):
`sorted(upcoming, key=lambda x: x[1])[:3]`. -/
def morning_deadlines (goals : List Goal) (today : ℤ) : List (Goal × ℤ) :=
  ((morning_upcoming goals today).mergeSort
    (fun a b => decide (a.2 ≤ b.2))).take 3

/-- The workout counter of `GoalsCalculator.get_weekly_report` (`goals.py`
326): `sum(1 for c in checkins if c.get('workout'))`. -/
def get_weekly_report_workouts (checkins : List Checkin) : ℕ :=
  ((checkins.filter (fun c => c.workout.getD false)).map (fun _ => (1 : ℕ))).sum

/-- The income totaliser of `GoalsCalculator.get_weekly_report` (`goals.py`
330): `sum(c.get('income', 0) for c in checkins)`. -/
def get_weekly_report_income (checkins : List Checkin) : ℚ :=
  (checkins.map (fun c => c.income.getD 0)).sum

/-- The value-progress computation both branches of `get_progress_status`
perform (`goals.py` 128 and 137): `calculate_progress_percent` on the goal's
fields, with `goal.get('name', '')` as the name argument. -/
def value_percent (goal : Goal) : ℚ :=
  calculate_progress_percent goal.current_value goal.target_value
    goal.initial_value (some (goal.name.getD ""))

/-- Claim C10: `calculate_progress_percent` is independent of its `goal_name`
argument — the parameter is accepted but never read, so any two name values
give the same result for the same numeric inputs. -/
theorem C10_goal_name_unused (current target : ℚ) (initial : Option ℚ)
    (n1 n2 : Option String) :
    calculate_progress_percent current target initial n1 =
      calculate_progress_percent current target initial n2 := rfl

/-- Claim C6: with `target == 0` the percent calculator returns exactly 0 for
every `current` and every optional `initial` (the guard fires before any
division; the Lean embedding is a total function, so no exception can occur). -/
theorem C6_target_zero (current : ℚ) (initial : Option ℚ) (n : Option String) :
    calculate_progress_percent current 0 initial n = 0 := by
  simp [calculate_progress_percent]

/-- Claim C1 (counterexample): in the increasing branch (no initial value)
the result is only clamped above, so a negative `current` with `target = 100`
yields `-10`, violating the claimed lower bound 0. -/
theorem C1_counterexample :
    calculate_progress_percent (-10) 100 none none = -10 ∧
    ¬ (0 ≤ calculate_progress_percent (-10) 100 none none) := by
  constructor
  · norm_num [calculate_progress_percent]
  · norm_num [calculate_progress_percent]

/-- Claim C1 (amended): for `target > 0` and no initial value the result is
at most 100; it is additionally at least 0 whenever `current ≥ 0`, and for a
negative `current` it is the unclamped negative value `current/target*100`. -/
theorem C1_increasing_bounds (current target : ℚ) (n : Option String)
    (h : 0 < target) :
    calculate_progress_percent current target none n ≤ 100 ∧
    (0 ≤ current → 0 ≤ calculate_progress_percent current target none n) ∧
    (current < 0 → calculate_progress_percent current target none n
      = current / target * 100) := by
  have ht : target ≠ 0 := ne_of_gt h
  unfold calculate_progress_percent
  simp only [ht, if_false]
  refine ⟨min_le_left _ _, ?_, ?_⟩
  · intro hc
    exact le_min (by norm_num)
      (mul_nonneg (div_nonneg hc h.le) (by norm_num))
  · intro hc
    have hlt : current / target * 100 < 100 := by
      have hneg : current / target < 0 := div_neg_of_neg_of_pos hc h
      nlinarith
    exact min_eq_right hlt.le

/-- Claim C1 (witness for the amended theorem) at `current = 3`,
`target = 4`. -/
theorem C1_increasing_bounds_witness :
    calculate_progress_percent 3 4 none none ≤ 100 ∧
    (0 ≤ (3 : ℚ) → 0 ≤ calculate_progress_percent 3 4 none none) ∧
    ((3 : ℚ) < 0 → calculate_progress_percent 3 4 none none = 3 / 4 * 100) :=
  C1_increasing_bounds 3 4 none (by norm_num)

/-- Claim C5: for `initial > target` with `target ≠ 0`, the calculator gives
0 at `current = initial`, 100 at `current = target`, and for `current >
target` the decreasing-branch formula `clamp(((initial - current)/(initial -
target))*100, 0, 100)`. -/
theorem C5_decreasing_branch (initial target : ℚ) (n : Option String)
    (ht : target ≠ 0) (hgt : target < initial) :
    calculate_progress_percent initial target (some initial) n = 0 ∧
    calculate_progress_percent target target (some initial) n = 100 ∧
    ∀ current, target < current →
      calculate_progress_percent current target (some initial) n =
        max 0 (min 100 ((initial - current) / (initial - target) * 100)) := by
  have hne : initial ≠ target := ne_of_gt hgt
  have hbranch : ∀ current, target < current →
      calculate_progress_percent current target (some initial) n =
        max 0 (min 100 ((initial - current) / (initial - target) * 100)) := by
    intro current hc
    simp [calculate_progress_percent, ht, hne, hc]
  refine ⟨?_, ?_, hbranch⟩
  · rw [hbranch initial hgt]
    simp
  · simp [calculate_progress_percent, ht, lt_irrefl, div_self ht]

/-- Claim C5 (witness) at the spec's weight-loss example `initial = 105`,
`target = 80`, plus `current = 87` for the formula clause. -/
theorem C5_decreasing_branch_witness :
    calculate_progress_percent 105 80 (some 105) none = 0 ∧
    calculate_progress_percent 80 80 (some 105) none = 100 ∧
    calculate_progress_percent 87 80 (some 105) none =
      max 0 (min 100 ((105 - 87) / (105 - 80) * 100)) := by
  obtain ⟨h1, h2, h3⟩ := C5_decreasing_branch 105 80 none (by norm_num) (by norm_num)
  exact ⟨h1, h2, h3 87 (by norm_num)⟩

/-- Claim C2: once a goal has a deadline (a present, non-empty string),
`get_progress_status` never returns `"completed"`: the result is one of
`"ahead"`, `"on_track"`, `"behind"`, whatever the value progress is. -/
theorem C2_deadline_never_completed (goal : Goal) (today : ℤ) (s : String)
    (hdl : goal.deadline = some s) (hne : s ≠ "") :
    get_progress_status goal today ≠ "completed" ∧
    (get_progress_status goal today = "ahead" ∨
     get_progress_status goal today = "on_track" ∨
     get_progress_status goal today = "behind") := by
  simp only [get_progress_status, hdl]
  rw [if_neg (by simp [hne])]
  cases h : calculate_time_progress (some s) today
  · simp
  · dsimp only
    split_ifs <;> simp

/-- Claim C2 (witness): a fully-completed goal (`current = target`) with the
deadline `"2026-12-31"` still gets a non-`"completed"` status. -/
theorem C2_deadline_never_completed_witness :
    get_progress_status (Goal.mk 100 100 (some "2026-12-31") none none) 0
        ≠ "completed" ∧
    (get_progress_status (Goal.mk 100 100 (some "2026-12-31") none none) 0
        = "ahead" ∨
     get_progress_status (Goal.mk 100 100 (some "2026-12-31") none none) 0
        = "on_track" ∨
     get_progress_status (Goal.mk 100 100 (some "2026-12-31") none none) 0
        = "behind") :=
  C2_deadline_never_completed (Goal.mk 100 100 (some "2026-12-31") none none)
    0 "2026-12-31" rfl (by decide)

/-- Claim C3: for a goal with a falsy deadline, the status is `"completed"`
when the computed percent is at least 100, `"on_track"` when it is in
[80, 100), and `"behind"` otherwise; `"ahead"` is never returned, and the
result is always one of the four labels. -/
theorem C3_no_deadline_status (goal : Goal) (today : ℤ)
    (hdl : goal.deadline = none ∨ goal.deadline = some "") :
    (100 ≤ value_percent goal → get_progress_status goal today = "completed") ∧
    (80 ≤ value_percent goal → value_percent goal < 100 →
      get_progress_status goal today = "on_track") ∧
    (value_percent goal < 80 → get_progress_status goal today = "behind") ∧
    get_progress_status goal today ≠ "ahead" ∧
    (get_progress_status goal today = "completed" ∨
     get_progress_status goal today = "ahead" ∨
     get_progress_status goal today = "on_track" ∨
     get_progress_status goal today = "behind") := by
  simp only [get_progress_status, value_percent]
  rw [if_pos (by rcases hdl with h | h <;> simp [h])]
  split_ifs with h1 h2 <;>
    refine ⟨?_, ?_, ?_, ?_, ?_⟩ <;> intros <;>
      first
        | rfl
        | decide
        | (exfalso; linarith)

/-- Claim C3 (witness): a deadline-free goal at 90 percent is
`"on_track"`. -/
theorem C3_no_deadline_status_witness :
    get_progress_status (Goal.mk 90 100 none none none) 0 = "on_track" :=
  (C3_no_deadline_status (Goal.mk 90 100 none none none) 0 (Or.inl rfl)).2.1
    (by norm_num [value_percent, calculate_progress_percent, min_def])
    (by norm_num [value_percent, calculate_progress_percent, min_def])

/-- Claim C4: with a present, non-empty deadline, `get_progress_status`
defaults to `"on_track"` when the time progress is unavailable; otherwise it
is `"ahead"` exactly when the value progress exceeds the time progress by
more than 10 points, `"behind"` exactly when it trails by more than 10, and
`"on_track"` everywhere inside the closed ±10 band — in particular at either
exact ±10 boundary. -/
theorem C4_deadline_status (goal : Goal) (today : ℤ) (s : String)
    (hdl : goal.deadline = some s) (hne : s ≠ "") :
    (calculate_time_progress (some s) today = none →
      get_progress_status goal today = "on_track") ∧
    (∀ tp, calculate_time_progress (some s) today = some tp →
      (tp + 10 < value_percent goal → get_progress_status goal today = "ahead") ∧
      (value_percent goal < tp - 10 → get_progress_status goal today = "behind") ∧
      (tp - 10 ≤ value_percent goal → value_percent goal ≤ tp + 10 →
        get_progress_status goal today = "on_track") ∧
      (get_progress_status goal today = "ahead" → tp + 10 < value_percent goal) ∧
      (get_progress_status goal today = "behind" → value_percent goal < tp - 10) ∧
      (value_percent goal = tp + 10 → get_progress_status goal today = "on_track") ∧
      (value_percent goal = tp - 10 → get_progress_status goal today = "on_track")) := by
  simp only [get_progress_status, value_percent, hdl]
  rw [if_neg (by simp [hne])]
  constructor
  · intro h
    rw [h]
  · intro tp h
    rw [h]
    dsimp only
    split_ifs with h1 h2 <;>
      refine ⟨?_, ?_, ?_, ?_, ?_, ?_, ?_⟩ <;> intros <;>
        first
          | rfl
          | (exfalso; linarith)
          | simp_all

/-- Claim C4 (witness): deadline `"2026-04-01"` seen on 2026-02-15 gives time
progress 50; a goal at 80 percent of value is then `"ahead"`, and one at 50
percent — strictly inside the ±10 band — is `"on_track"`. -/
theorem C4_deadline_status_witness :
    get_progress_status
      (Goal.mk 800000 1000000 (some "2026-04-01") none none)
      ((toOrdinal 2026 2 15 : ℕ) : ℤ) = "ahead" ∧
    get_progress_status
      (Goal.mk 500000 1000000 (some "2026-04-01") none none)
      ((toOrdinal 2026 2 15 : ℕ) : ℤ) = "on_track" := by
  have htp : calculate_time_progress (some "2026-04-01")
      ((toOrdinal 2026 2 15 : ℕ) : ℤ) = some 50 := by
    have hp : parseYMD "2026-04-01" = some 739707 := by decide
    have he : startOfYear2026 = 739617 := by decide
    have htd : toOrdinal 2026 2 15 = 739662 := by decide
    simp [calculate_time_progress, hp, he, htd]
    norm_num
  have ha := C4_deadline_status
    (Goal.mk 800000 1000000 (some "2026-04-01") none none)
    ((toOrdinal 2026 2 15 : ℕ) : ℤ) "2026-04-01" rfl (by decide)
  have ho := C4_deadline_status
    (Goal.mk 500000 1000000 (some "2026-04-01") none none)
    ((toOrdinal 2026 2 15 : ℕ) : ℤ) "2026-04-01" rfl (by decide)
  refine ⟨(ha.2 50 htp).1
    (by norm_num [value_percent, calculate_progress_percent, min_def]),
    (ho.2 50 htp).2.2.1
    (by norm_num [value_percent, calculate_progress_percent, min_def])
    (by norm_num [value_percent, calculate_progress_percent, min_def])⟩

/-- Claim C7: `days_until` is absent exactly when the deadline is missing,
empty, unparseable, or strictly before today; a parsed deadline 10 days in
the past gives absent (never `-10`) and a deadline equal to today gives 0. -/
theorem C7_days_until_absent (d : Option String) (today : ℤ) :
    (days_until d today = none ↔
      d = none ∨ ∃ s, d = some s ∧
        (s = "" ∨ parseYMD s = none ∨
          ∃ n, parseYMD s = some n ∧ (n : ℤ) < today)) ∧
    (∀ s n, d = some s → parseYMD s = some n →
      days_until d ((n : ℤ) + 10) = none ∧ days_until d (n : ℤ) = some 0) := by
  constructor
  · cases d with
    | none => simp [days_until]
    | some s =>
      simp only [days_until]
      by_cases hs : s = ""
      · simp [hs]
      · rw [if_neg hs]
        cases hp : parseYMD s with
        | none => simp [hs, hp]
        | some n =>
          dsimp only
          split_ifs with h
          · simp [hs, hp]
            omega
          · simp [hs, hp]
            omega
  · intro s n hds hp
    subst hds
    have hs : s ≠ "" := by
      intro h
      subst h
      have hemp : parseYMD "" = none := rfl
      rw [hemp] at hp
      cases hp
    refine ⟨?_, ?_⟩
    · simp [days_until, hs, hp]
    · simp [days_until, hs, hp]

/-- Claim C7 (witness): `"2026-03-15"` parses to ordinal 739690; seen 10 days
later the deadline is absent, and seen the same day it is 0. -/
theorem C7_days_until_absent_witness :
    days_until (some "2026-03-15") ((739690 : ℤ) + 10) = none ∧
    days_until (some "2026-03-15") (739690 : ℤ) = some 0 :=
  (C7_days_until_absent (some "2026-03-15") 0).2 "2026-03-15" 739690 rfl
    (by decide)

/-- Membership in either upcoming-deadline collection loop: a pair `(g, d)`
is collected exactly when `g` is in the input list, `days_until` gives `d`,
and `d` is truthy and inside `(0, cut)`. -/
lemma mem_upcoming_filterMap {cut : ℤ} {goals : List Goal} {today : ℤ}
    {p : Goal × ℤ} :
    p ∈ goals.filterMap (fun g =>
      match days_until g.deadline today with
      | none => none
      | some d => if d ≠ 0 ∧ 0 < d ∧ d < cut then some (g, d) else none) ↔
    p.1 ∈ goals ∧ days_until p.1.deadline today = some p.2 ∧
      0 < p.2 ∧ p.2 < cut := by
  rw [List.mem_filterMap]
  constructor
  · rintro ⟨g, hg, hf⟩
    cases hd : days_until g.deadline today with
    | none => rw [hd] at hf; cases hf
    | some d =>
      rw [hd] at hf
      dsimp only at hf
      split_ifs at hf with hc
      injection hf with hf
      subst hf
      exact ⟨hg, hd, hc.2.1, hc.2.2⟩
  · rintro ⟨hg, hd, h0, hc⟩
    refine ⟨p.1, hg, ?_⟩
    rw [hd]
    simp [ne_of_gt h0, h0, hc]

/-- Any truncation of a day-count merge sort is sorted ascending by the day
count. -/
lemma sorted_take_days (l : List (Goal × ℤ)) (k : ℕ) :
    List.Pairwise (fun a b : Goal × ℤ => a.2 ≤ b.2)
      ((l.mergeSort (fun a b => decide (a.2 ≤ b.2))).take k) := by
  have hs := @List.sorted_mergeSort (Goal × ℤ)
    (fun a b => decide (a.2 ≤ b.2))
    (fun a b c hab hbc => by
      simp only [decide_eq_true_eq] at *
      exact le_trans hab hbc)
    (fun a b => by
      simp only [Bool.or_eq_true, decide_eq_true_eq]
      exact le_total a.2 b.2)
    l
  exact (hs.sublist (List.take_sublist _ _)).imp (fun h => of_decide_eq_true h)

/-- Claim C8: the daily-summary deadline section holds only goals whose day
count lies in `(0, 60)`, sorted ascending, at most 5 of them, with every
qualifying goal collected (and shown whenever at most 5 qualify); the
morning-notification list is the same with cutoff 30 and at most 3 shown. -/
theorem C8_upcoming_views (goals : List Goal) (today : ℤ) :
    ((∀ p ∈ get_today_summary_deadlines goals today,
        p.1 ∈ goals ∧ days_until p.1.deadline today = some p.2 ∧
          0 < p.2 ∧ p.2 < 60) ∧
     List.Pairwise (fun a b : Goal × ℤ => a.2 ≤ b.2)
        (get_today_summary_deadlines goals today) ∧
     (get_today_summary_deadlines goals today).length ≤ 5 ∧
     (∀ g d, g ∈ goals → days_until g.deadline today = some d →
        0 < d → d < 60 → (g, d) ∈ upcoming_deadlines goals today) ∧
     ((upcoming_deadlines goals today).length ≤ 5 →
        (get_today_summary_deadlines goals today).Perm
          (upcoming_deadlines goals today))) ∧
    ((∀ p ∈ morning_deadlines goals today,
        p.1 ∈ goals ∧ days_until p.1.deadline today = some p.2 ∧
          0 < p.2 ∧ p.2 < 30) ∧
     List.Pairwise (fun a b : Goal × ℤ => a.2 ≤ b.2)
        (morning_deadlines goals today) ∧
     (morning_deadlines goals today).length ≤ 3 ∧
     (∀ g d, g ∈ goals → days_until g.deadline today = some d →
        0 < d → d < 30 → (g, d) ∈ morning_upcoming goals today) ∧
     ((morning_upcoming goals today).length ≤ 3 →
        (morning_deadlines goals today).Perm
          (morning_upcoming goals today))) := by
  constructor
  · refine ⟨?_, ?_, ?_, ?_, ?_⟩
    · intro p hp
      exact mem_upcoming_filterMap.mp
        ((List.mergeSort_perm _ _).mem_iff.mp (List.mem_of_mem_take hp))
    · exact sorted_take_days _ 5
    · exact List.length_take_le _ _
    · intro g d hg hd h0 hc
      exact mem_upcoming_filterMap.mpr ⟨hg, hd, h0, hc⟩
    · intro hlen
      have h5 : get_today_summary_deadlines goals today =
          (upcoming_deadlines goals today).mergeSort
            (fun a b => decide (a.2 ≤ b.2)) := by
        unfold get_today_summary_deadlines
        exact List.take_of_length_le (by rw [List.length_mergeSort]; exact hlen)
      rw [h5]
      exact List.mergeSort_perm _ _
  · refine ⟨?_, ?_, ?_, ?_, ?_⟩
    · intro p hp
      exact mem_upcoming_filterMap.mp
        ((List.mergeSort_perm _ _).mem_iff.mp (List.mem_of_mem_take hp))
    · exact sorted_take_days _ 3
    · exact List.length_take_le _ _
    · intro g d hg hd h0 hc
      exact mem_upcoming_filterMap.mpr ⟨hg, hd, h0, hc⟩
    · intro hlen
      have h3 : morning_deadlines goals today =
          (morning_upcoming goals today).mergeSort
            (fun a b => decide (a.2 ≤ b.2)) := by
        unfold morning_deadlines
        exact List.take_of_length_le (by rw [List.length_mergeSort]; exact hlen)
      rw [h3]
      exact List.mergeSort_perm _ _

/-- Claim C8 (witness): a goal due `"2026-03-15"` seen 10 days earlier is
collected by the daily-summary loop with day count 10. -/
theorem C8_upcoming_views_witness :
    (Goal.mk 0 100 (some "2026-03-15") none none, (10 : ℤ)) ∈
      upcoming_deadlines [Goal.mk 0 100 (some "2026-03-15") none none] 739680 :=
  (C8_upcoming_views [Goal.mk 0 100 (some "2026-03-15") none none]
      739680).1.2.2.2.1
    (Goal.mk 0 100 (some "2026-03-15") none none) 10 (by simp)
    (by decide) (by decide) (by decide)

/-- Claim C9: for checkin lists of any length, the weekly workout count is
the number of records whose workout field is true, a missing income field
contributes 0 to the total, and the income total over
`[{income: 1000}, {income: 2000}]` is 3000. -/
theorem C9_weekly_report (checkins : List Checkin) :
    get_weekly_report_workouts checkins =
      (checkins.filter (fun c => c.workout = some true)).length ∧
    (∀ w cs, get_weekly_report_income (Checkin.mk w none :: cs) =
      get_weekly_report_income cs) ∧
    get_weekly_report_income
      [Checkin.mk none (some 1000), Checkin.mk none (some 2000)] = 3000 := by
  refine ⟨?_, ?_, ?_⟩
  · have hpred : (fun c : Checkin => c.workout.getD false) =
        (fun c : Checkin => decide (c.workout = some true)) := by
      funext c
      cases hw : c.workout with
      | none => rfl
      | some b => cases b <;> rfl
    unfold get_weekly_report_workouts
    rw [hpred]
    have hlen : ∀ (l : List Checkin),
        (l.map (fun _ => (1 : ℕ))).sum = l.length := by
      intro l
      induction l with
      | nil => rfl
      | cons a t ih => simp [ih, Nat.add_comm]
    exact hlen _
  · intro w cs
    simp [get_weekly_report_income]
  · norm_num [get_weekly_report_income]

end TechRise
